import Mathlib

/-!
Verification development for the RedactifAI de-identification pipeline.

The Python sources are shallowly embedded as executable Lean definitions:

* `src/models/domain.py`          → `BoundingBox`, `OCRWord`, `OCRPage`,
  `OCRResult`, `PHIEntity`, `MaskRegion`, `MaskingLevel`,
  `DeidentificationResult`
* `src/services/entity_matcher.py` → `WordOffset`, `Matcher` and the
  `buildOffsetMap` / `findWordInText` / `findOverlappingWords` /
  `fuzzySearchForEntity` / `groupByPage` / `mergeBoundingBoxes` /
  `matchEntitiesToBoxes` functions
* `src/services/image_masking_service.py` → `applyMasks`, `maskPage`
* `src/services/azure_phi_detection_service.py` and
  `src/services/aws_comprehend_medical_service.py` → the
  `_should_include_entity` level filters
* `src/storage/local.py`          → `LocalStore` operations with a lexical
  model of `Path.resolve` / `relative_to` (symbolic links are not modelled)
* `src/services/deidentification_service.py` → `deidentifyDocument` with the
  pipeline body abstracted as an `Except` value (any stage may raise)
* `src/tasks.py`                  → `runTask`, a trace-producing model of the
  Celery job, and `entityRow` for the persisted per-entity rows

Python `float` pixel coordinates are modelled as `ℤ` (every code path the
claims exercise carries integer pixel values) and `float` confidences as
`ℚ`; wall-clock timing fields are not modelled.  Python's `Levenshtein.distance` is embedded
as the Wagner–Fischer dynamic program `levenshtein`.
-/

/-! ## Python string primitives -/

/-- Python `str.lower()` (ASCII case folding). -/
def pyLower (s : String) : String :=
  ⟨s.data.map Char.toLower⟩

/-- Python `str.upper()` (ASCII case folding). -/
def pyUpper (s : String) : String :=
  ⟨s.data.map Char.toUpper⟩

/-- Drop leading whitespace characters from a character list. -/
def dropLeadingWs : List Char → List Char
  | [] => []
  | c :: cs => if c.isWhitespace then dropLeadingWs cs else c :: cs

/-- Python `str.strip()`: remove leading and trailing whitespace. -/
def pyStrip (s : String) : String :=
  ⟨(dropLeadingWs (dropLeadingWs s.data.reverse).reverse)⟩

/-- Decide whether one list is a prefix of another. -/
def listPrefixEq {α : Type} [DecidableEq α] : List α → List α → Bool
  | [], _ => true
  | _ :: _, [] => false
  | a :: as, b :: bs => a = b && listPrefixEq as bs

/-- Decide whether the second list occurs as a contiguous sublist of the
first. -/
def listContainsSub {α : Type} [DecidableEq α] : List α → List α → Bool
  | [], sub => listPrefixEq sub []
  | a :: rest, sub => listPrefixEq sub (a :: rest) || listContainsSub rest sub

/-- Python `sub in s` for strings (substring containment). -/
def pyIn (sub s : String) : Bool :=
  listContainsSub s.data sub.data

/-! ## Levenshtein distance (Wagner–Fischer), embedding `Levenshtein.distance` -/

/-- One inner step of the Wagner–Fischer recurrence: given the character `ai`
of the first word, the remaining characters `bs` of the second word, the tail
of the previous row starting at the diagonal cell, and the cell to the left,
produce the rest of the current row. -/
def levGo (ai : Char) : List Char → List Nat → Nat → List Nat
  | [], _, _ => []
  | _ :: _, [], _ => []
  | b :: brest, pj :: prest, left =>
    let cost : Nat := if ai = b then 0 else 1
    let up := prest.headD 0
    let cur := min (pj + cost) (min (up + 1) (left + 1))
    cur :: levGo ai brest prest cur

/-- Compute the next Wagner–Fischer row from the previous one. -/
def levRowStep (bs : List Char) (prev : List Nat) (ai : Char) : List Nat :=
  match prev with
  | [] => []
  | p0 :: _ => (p0 + 1) :: levGo ai bs prev (p0 + 1)

/-- Levenshtein edit distance between two character lists. -/
def levDistanceL (a b : List Char) : Nat :=
  (a.foldl (levRowStep b) (List.range (b.length + 1))).getLastD 0

/-- Levenshtein edit distance between two strings, the model of Python's
`Levenshtein.distance`. -/
def levDistance (a b : String) : Nat :=
  levDistanceL a.data b.data

/-! ## Geometry / domain model (`src/models/domain.py`) -/

/-- Job status enumeration. -/
inductive JobStatus where
  | pending
  | processing
  | complete
  | failed
deriving DecidableEq, Repr

/-- Bounding box in page-local pixel coordinates (floats modelled as `ℤ`). -/
structure BoundingBox where
  page : Nat
  x : ℤ
  y : ℤ
  width : ℤ
  height : ℤ
deriving DecidableEq, Repr

/-- Single OCR word with its location. -/
structure OCRWord where
  text : String
  confidence : ℚ
  boundingBox : BoundingBox
deriving DecidableEq, Repr

/-- Single page of OCR results. -/
structure OCRPage where
  pageNumber : Nat
  width : ℤ
  height : ℤ
  words : List OCRWord
deriving DecidableEq, Repr

/-- Complete OCR results for a document. -/
structure OCRResult where
  pages : List OCRPage
  fullText : String
deriving DecidableEq, Repr

/-- PHI entity detected by the text detector. -/
structure PHIEntity where
  text : String
  category : String
  offset : Nat
  length : Nat
  confidence : ℚ
  subcategory : Option String := none
deriving DecidableEq, Repr

/-- Exclusive end offset of an entity span. -/
def PHIEntity.endOffset (e : PHIEntity) : Nat :=
  e.offset + e.length

/-- Region to mask in the image. -/
structure MaskRegion where
  page : Nat
  boundingBox : BoundingBox
  entityCategory : String
  confidence : ℚ
deriving DecidableEq, Repr

/-- HIPAA masking level. -/
inductive MaskingLevel where
  | safeHarbor
  | limitedDataset
  | custom
deriving DecidableEq, Repr

/-- Result of document de-identification (timing fields not modelled;
document bytes modelled as `String`). -/
structure DeidentificationResult where
  status : String
  maskedImageBytes : String
  pagesProcessed : Nat
  phiEntitiesCount : Nat
  phiEntities : List PHIEntity
  maskRegions : List MaskRegion
  errors : List String
deriving DecidableEq, Repr

/-! ## Entity matcher (`src/services/entity_matcher.py`) -/

/-- Maps an OCR word to its character position in `fullText`
(`WordOffset` in `entity_matcher.py`). -/
structure WordOffset where
  word : OCRWord
  startOffset : Nat
  endOffset : Nat
deriving DecidableEq, Repr

/-- `WordOffset.overlaps_range`: the word's half-open span intersects
`[s, e)`. -/
def WordOffset.overlapsRange (wo : WordOffset) (s e : Nat) : Bool :=
  !(decide (wo.endOffset ≤ s) || decide (e ≤ wo.startOffset))

/-- Configuration of `EntityMatcher.__init__`. -/
structure Matcher where
  fuzzyMatchThreshold : Nat := 2
  confidenceThreshold : ℚ := 0
  boxPaddingPx : ℤ := 5
deriving DecidableEq, Repr

/-- The default `EntityMatcher()`. -/
def defaultMatcher : Matcher := {}

/-- Count the leading whitespace characters of a character list. -/
def leadingWsCount : List Char → Nat
  | [] => 0
  | c :: cs => if c.isWhitespace then leadingWsCount cs + 1 else 0

/-- Advance an offset past whitespace in `text` (the inner `while` loop of
`_build_offset_map`). -/
def skipWhitespaceFrom (text : List Char) (off : Nat) : Nat :=
  off + leadingWsCount (text.drop off)

/-- `EntityMatcher._find_word_in_text`: locate `word` in `text` at
`start`, first exactly, then fuzzily over candidate lengths
`max 1 (|word|-2) ≤ l < min |substring| (|word|+3)`, accepting the first
candidate within the Levenshtein threshold.  Returns `(offset, length)`. -/
def findWordInText (thr : Nat) (text : List Char) (word : List Char)
    (start : Nat) : Option (Nat × Nat) :=
  if word = [] then none
  else
    let wlen := word.length
    if start + wlen ≤ text.length ∧ (text.drop start).take wlen = word then
      some (start, wlen)
    else
      let searchWindow := min (wlen + 5) (text.length - start)
      if 0 < searchWindow then
        let substring := (text.drop start).take searchWindow
        let lens := (List.range (min substring.length (wlen + 3))).filter
          (fun l => decide (max 1 (wlen - 2) ≤ l))
        match lens.find? (fun l =>
          let candidate := substring.take l
          if candidate.all Char.isWhitespace then false
          else decide (levDistanceL word candidate ≤ thr)) with
        | some l => some (start, l)
        | none => none
      else none

/-- Loop body of `EntityMatcher._build_offset_map`: walk `fullText`,
consuming the flattened word stream; a word that cannot be located is
dropped from the index without advancing the text position. -/
def buildOffsetMapAux (thr : Nat) (text : List Char) :
    List OCRWord → Nat → List WordOffset
  | [], _ => []
  | w :: ws, curOff =>
    if curOff < text.length then
      let off1 := skipWhitespaceFrom text curOff
      if text.length ≤ off1 then []
      else
        match findWordInText thr text (pyStrip w.text).data off1 with
        | some (mo, ml) =>
          ⟨w, mo, mo + ml⟩ :: buildOffsetMapAux thr text ws (mo + ml)
        | none => buildOffsetMapAux thr text ws off1
    else []

/-- `EntityMatcher._build_offset_map`. -/
def buildOffsetMap (m : Matcher) (r : OCRResult) : List WordOffset :=
  buildOffsetMapAux m.fuzzyMatchThreshold r.fullText.data
    ((r.pages.map OCRPage.words).flatten) 0

/-- Join strings with single spaces (Python `" ".join`). -/
def joinSpace : List String → String
  | [] => ""
  | [s] => s
  | s :: rest => s ++ " " ++ joinSpace rest

/-- `EntityMatcher._fuzzy_search_for_entity`: fallback text search.  Collects
every offset-map word whose lowercased stripped text is a substring of the
entity text, contains the entity text, or is within the Levenshtein
threshold of it. -/
def fuzzySearchForEntity (m : Matcher) (entity : PHIEntity)
    (offsetMap : List WordOffset) : List WordOffset :=
  let entityText := pyLower (pyStrip entity.text)
  offsetMap.filter (fun wo =>
    let wordText := pyLower (pyStrip wo.word.text)
    pyIn wordText entityText || pyIn entityText wordText ||
      decide (levDistance wordText entityText ≤ m.fuzzyMatchThreshold))

/-- The validation bound of `_find_overlapping_words`:
`max(len(entity_text) // 3, fuzzy_match_threshold)` where `entity_text` is
the stripped entity text. -/
def validationBound (m : Matcher) (entity : PHIEntity) : Nat :=
  max ((pyStrip entity.text).length / 3) m.fuzzyMatchThreshold

/-- The validation distance of `_find_overlapping_words`: Levenshtein
distance between the overlapping words' texts joined with single spaces and
the stripped entity text, both lowercased. -/
def validationDistance (entity : PHIEntity) (overlapping : List WordOffset) : Nat :=
  levDistance (pyLower (joinSpace (overlapping.map (fun wo => wo.word.text))))
    (pyLower (pyStrip entity.text))

/-- `EntityMatcher._find_overlapping_words`: collect words overlapping the
entity span, validate them against the entity text, and fall back to the
fuzzy content search when nothing survives and the entity text occurs in
`fullText`. -/
def findOverlappingWords (m : Matcher) (entity : PHIEntity)
    (offsetMap : List WordOffset) (fullText : String) : List WordOffset :=
  let overlapping := offsetMap.filter
    (fun wo => wo.overlapsRange entity.offset entity.endOffset)
  let overlapping :=
    if overlapping.isEmpty then overlapping
    else if validationBound m entity < validationDistance entity overlapping
    then [] else overlapping
  if overlapping.isEmpty && pyIn (pyLower entity.text) (pyLower fullText) then
    fuzzySearchForEntity m entity offsetMap
  else overlapping

/-- Append a word offset to the group of its page, preserving first-seen
page order (Python `dict` insertion order in `_group_by_page`). -/
def insertGrouped (p : Nat) (wo : WordOffset) :
    List (Nat × List WordOffset) → List (Nat × List WordOffset)
  | [] => [(p, [wo])]
  | (q, l) :: rest =>
    if q = p then (q, l ++ [wo]) :: rest
    else (q, l) :: insertGrouped p wo rest

/-- `EntityMatcher._group_by_page`. -/
def groupByPage (wordOffsets : List WordOffset) : List (Nat × List WordOffset) :=
  wordOffsets.foldl (fun acc wo => insertGrouped wo.word.boundingBox.page wo acc) []

/-- Minimum of an integer list with explicit base value. -/
def zListMin (a : ℤ) (l : List ℤ) : ℤ := l.foldl min a

/-- Maximum of an integer list with explicit base value. -/
def zListMax (a : ℤ) (l : List ℤ) : ℤ := l.foldl max a

/-- `EntityMatcher._merge_bounding_boxes`: union rectangle of the words'
boxes, padded on all sides and clamped at zero.  `none` corresponds to the
`ValueError` raised on an empty list. -/
def mergeBoundingBoxes (m : Matcher) (wordOffsets : List WordOffset) :
    Option BoundingBox :=
  match wordOffsets with
  | [] => none
  | wo :: rest =>
    let page := wo.word.boundingBox.page
    let boxes := (wo :: rest).map (fun w => w.word.boundingBox)
    let minX := zListMin (wo.word.boundingBox.x) (boxes.map (fun b => b.x))
    let minY := zListMin (wo.word.boundingBox.y) (boxes.map (fun b => b.y))
    let maxX := zListMax (wo.word.boundingBox.x + wo.word.boundingBox.width)
      (boxes.map (fun b => b.x + b.width))
    let maxY := zListMax (wo.word.boundingBox.y + wo.word.boundingBox.height)
      (boxes.map (fun b => b.y + b.height))
    let minX' := max 0 (minX - m.boxPaddingPx)
    let minY' := max 0 (minY - m.boxPaddingPx)
    let maxX' := maxX + m.boxPaddingPx
    let maxY' := maxY + m.boxPaddingPx
    some ⟨page, minX', minY', maxX' - minX', maxY' - minY'⟩

/-- The mask regions emitted for one entity from its overlapping words
(the body of the `if overlapping_words:` branch of
`match_entities_to_boxes`). -/
def regionsForEntity (m : Matcher) (entity : PHIEntity)
    (overlapping : List WordOffset) : List MaskRegion :=
  (groupByPage overlapping).filterMap (fun g =>
    (mergeBoundingBoxes m g.2).map (fun box =>
      ⟨g.1, box, entity.category, entity.confidence⟩))

/-- `EntityMatcher.match_entities_to_boxes`. -/
def matchEntitiesToBoxes (m : Matcher) (r : OCRResult)
    (entities : List PHIEntity) : List MaskRegion :=
  let offsetMap := buildOffsetMap m r
  entities.foldl (fun regions entity =>
    if entity.confidence < m.confidenceThreshold then regions
    else
      let overlapping := findOverlappingWords m entity offsetMap r.fullText
      if overlapping.isEmpty then regions
      else regions ++ regionsForEntity m entity overlapping) []

/-! ## PHI detector level filtering
(`src/services/azure_phi_detection_service.py`,
`src/services/aws_comprehend_medical_service.py`) -/

/-- Azure categories excluded in LIMITED_DATASET mode
(`AzurePHIDetectionService.PROVIDER_CATEGORIES`). -/
def azureProviderCategories : List String := ["PersonType", "Organization"]

/-- `AzurePHIDetectionService._should_include_entity`.  The second component
records whether the `logger.warning` for an empty CUSTOM category set was
emitted. -/
def azureShouldIncludeEntity (customCats : List String) (category : String) :
    MaskingLevel → Bool × Bool
  | .safeHarbor => (true, false)
  | .limitedDataset => (decide (category ∉ azureProviderCategories), false)
  | .custom =>
    if customCats.isEmpty then (true, true)
    else (decide (category ∈ customCats), false)

/-- The filtering and sorting performed by
`AzurePHIDetectionService.detect_phi` on the provider's entity list. -/
def azureFilterEntities (customCats : List String) (lvl : MaskingLevel)
    (raw : List PHIEntity) : List PHIEntity :=
  (raw.filter (fun e => (azureShouldIncludeEntity customCats e.category lvl).1)).mergeSort
    (fun a b => decide (a.offset ≤ b.offset))

/-- AWS Comprehend Medical entity as consumed by
`_should_include_entity_with_attributes`: the `Category` field, the `Name`s
of its `Traits` and the `Type`s of its `Attributes`. -/
structure AWSEntity where
  category : Option String
  traits : List String
  attributeTypes : List String
deriving DecidableEq, Repr

/-- `AWSComprehendMedicalService._should_include_entity_with_attributes`.
The second component records whether the empty-CUSTOM warning was emitted. -/
def awsShouldIncludeEntity (customCats : List String) (e : AWSEntity) :
    MaskingLevel → Bool × Bool
  | .safeHarbor => (true, false)
  | .limitedDataset =>
    if e.category = some "NAME" then
      if e.traits.any (fun t => t = "DIAGNOSIS" || t = "SIGN" || t = "SYMPTOM")
      then (false, false)
      else if e.attributeTypes.any (fun a => a = "DIRECTION") then (false, false)
      else (true, false)
    else (true, false)
  | .custom =>
    if customCats.isEmpty then (true, true)
    else
      match e.category with
      | some c => (decide (c ∈ customCats), false)
      | none => (false, false)

/-! ## Image masking (`src/services/image_masking_service.py`)

Pages are PIL images, modelled as a mode tag plus a pixel grid; a pixel is
an RGB triple.  Debug mode (semi-transparent fills) is not modelled; the
service below is the production path (`debug_mode=False`). -/

/-- RGB pixel. -/
abbrev Pixel := ℕ × ℕ × ℕ

/-- A page image: PIL mode tag and pixel rows. -/
structure PageImage where
  mode : String
  pixels : List (List Pixel)
deriving DecidableEq, Repr

/-- PIL `img.copy()` — in the pure model a copy is the image itself. -/
def copyImage (img : PageImage) : PageImage := img

/-- PIL `img.convert('RGB')` guarded by `img.mode != 'RGB'`: the mode tag
changes, the pixel content is preserved (greyscale values are already
represented as triples). -/
def convertRGB (img : PageImage) : PageImage :=
  if img.mode = "RGB" then img else ⟨"RGB", img.pixels⟩

/-- `ImageMaskingService.__init__` configuration (production path). -/
structure MaskSvc where
  maskColor : Pixel := (0, 0, 0)
deriving DecidableEq, Repr

/-- The default `ImageMaskingService()`. -/
def defaultMaskSvc : MaskSvc := {}

/-- Paint `ImageDraw.rectangle([(x1,y1),(x2,y2)], fill=color)` on a pixel
grid; PIL's rectangle includes both corners. -/
def paintRect (px : List (List Pixel)) (b : BoundingBox) (c : Pixel) :
    List (List Pixel) :=
  px.enum.map (fun re =>
    if b.y ≤ (re.1 : ℤ) ∧ (re.1 : ℤ) ≤ b.y + b.height then
      re.2.enum.map (fun ce =>
        if b.x ≤ (ce.1 : ℤ) ∧ (ce.1 : ℤ) ≤ b.x + b.width then c else ce.2)
    else re.2)

/-- Append a region to the group of its page, preserving first-seen page
order (`ImageMaskingService._group_by_page`). -/
def insertRegionGrouped (p : Nat) (r : MaskRegion) :
    List (Nat × List MaskRegion) → List (Nat × List MaskRegion)
  | [] => [(p, [r])]
  | (q, l) :: rest =>
    if q = p then (q, l ++ [r]) :: rest
    else (q, l) :: insertRegionGrouped p r rest

/-- `ImageMaskingService._group_by_page`. -/
def groupRegionsByPage (regions : List MaskRegion) :
    List (Nat × List MaskRegion) :=
  regions.foldl (fun acc r => insertRegionGrouped r.page r acc) []

/-- Python `regions_by_page.get(page_num, [])`. -/
def lookupGroup (p : Nat) (groups : List (Nat × List MaskRegion)) :
    List MaskRegion :=
  match groups.lookup p with
  | some g => g
  | none => []

/-- `ImageMaskingService._mask_page`: copy the page, convert to RGB
(production path) and paint each region's rectangle with the mask colour. -/
def maskPage (svc : MaskSvc) (img : PageImage) (regions : List MaskRegion) :
    PageImage :=
  let masked := convertRGB (copyImage img)
  ⟨masked.mode,
    regions.foldl (fun px r => paintRect px r.boundingBox svc.maskColor)
      masked.pixels⟩

/-- `ImageMaskingService.apply_masks`: raises on an empty image list,
copies every page when there are no regions, otherwise converts all pages
to RGB and masks each page carrying regions, copying the rest. -/
def applyMasks (svc : MaskSvc) (images : List PageImage)
    (maskRegions : List MaskRegion) : Except String (List PageImage) :=
  if images.isEmpty then .error "Cannot mask empty image list"
  else if maskRegions.isEmpty then .ok (images.map copyImage)
  else
    let images' := images.map convertRGB
    let byPage := groupRegionsByPage maskRegions
    .ok (images'.enum.map (fun ie =>
      let pageRegions := lookupGroup (ie.1 + 1) byPage
      if pageRegions.isEmpty then copyImage ie.2
      else maskPage svc ie.2 pageRegions))

/-! ## Local storage backend (`src/storage/local.py`)

`Path.resolve` / `relative_to` are modelled lexically on path components;
symbolic links are not modelled.  A key starting with `/` replaces the base
path entirely, as Python's `Path.__truediv__` does for absolute paths. -/

/-- Split a character list on a separator character. -/
def splitChars (sep : Char) : List Char → List (List Char)
  | [] => [[]]
  | x :: xs =>
    let r := splitChars sep xs
    if x = sep then [] :: r
    else
      match r with
      | h :: t => (x :: h) :: t
      | [] => [[x]]

/-- Split a storage key on `/`. -/
def splitKey (key : String) : List String :=
  (splitChars '/' key.data).map (fun l => ⟨l⟩)

/-- Whether a key is an absolute path (starts with `/`). -/
def startsWithSlash (key : String) : Bool :=
  match key.data with
  | c :: _ => c = '/'
  | [] => false

/-- Lexical `Path.resolve`: process components against an absolute component
stack; `..` pops (staying at the root when empty), `.` and empty components
are dropped. -/
def resolveAbs : List String → List String → List String
  | acc, [] => acc
  | acc, "" :: rest => resolveAbs acc rest
  | acc, "." :: rest => resolveAbs acc rest
  | acc, ".." :: rest => resolveAbs acc.dropLast rest
  | acc, c :: rest => resolveAbs (acc ++ [c]) rest

/-- `LocalStorageBackend._get_full_path`: resolve `base / key` and require
the result to stay under `base` (`relative_to` raises otherwise, modelled
as `none`). -/
def getFullPath (base : List String) (key : String) : Option (List String) :=
  let comps := splitKey key
  let resolved :=
    if startsWithSlash key then resolveAbs [] comps else resolveAbs base comps
  if listPrefixEq base resolved then some resolved else none

/-- Contents of a local storage backend: resolved path ↦ data. -/
abbrev LocalStore := List (List String × String)

/-- Write (or overwrite) a file. -/
def storeInsert (st : LocalStore) (p : List String) (data : String) :
    LocalStore :=
  (p, data) :: st.filter (fun e => e.1 ≠ p)

/-- `LocalStorageBackend.upload`. -/
def uploadLocal (base : List String) (st : LocalStore) (key data : String) :
    Except String LocalStore :=
  match getFullPath base key with
  | none => .error "ValueError: path resolves outside base_path"
  | some p => .ok (storeInsert st p data)

/-- `LocalStorageBackend.download`. -/
def downloadLocal (base : List String) (st : LocalStore) (key : String) :
    Except String String :=
  match getFullPath base key with
  | none => .error "ValueError: path resolves outside base_path"
  | some p =>
    match st.lookup p with
    | some data => .ok data
    | none => .error ("FileNotFoundError: Key not found: " ++ key)

/-- `LocalStorageBackend.exists`. -/
def existsLocal (base : List String) (st : LocalStore) (key : String) :
    Except String Bool :=
  match getFullPath base key with
  | none => .error "ValueError: path resolves outside base_path"
  | some p => .ok (st.lookup p).isSome

/-- `LocalStorageBackend.delete`. -/
def deleteLocal (base : List String) (st : LocalStore) (key : String) :
    Except String LocalStore :=
  match getFullPath base key with
  | none => .error "ValueError: path resolves outside base_path"
  | some p => .ok (st.filter (fun e => e.1 ≠ p))

/-! ## Document format and pipeline wrapper
(`src/utils/document_processor.py`, `src/services/deidentification_service.py`)

The pipeline body of `deidentify_document` (document loading, OCR, PHI
detection, matching, masking, reassembly — any stage of which may raise) is
abstracted as an `Except String DeidentificationResult` argument; the
embedding models the `output_format` parsing that happens before the
`try` block and the exception handling of the `try` block itself. -/

/-- Supported document formats. -/
inductive DocumentFormat where
  | tiff
  | pdf
  | png
  | jpeg
deriving DecidableEq, Repr

/-- `_FORMAT_MIME_TYPES` in `document_processor.py`. -/
def formatMimeTypes : List (String × String) :=
  [("image/tiff", "tiff"), ("image/tif", "tiff"),
   ("application/pdf", "pdf"), ("image/png", "png"),
   ("image/jpeg", "jpeg"), ("image/jpg", "jpeg")]

/-- Parse a `DocumentFormat` enum value string. -/
def formatOfValue : String → Option DocumentFormat
  | "tiff" => some .tiff
  | "pdf" => some .pdf
  | "png" => some .png
  | "jpeg" => some .jpeg
  | _ => none

/-- Parse a `DocumentFormat` enum member name. -/
def formatOfName : String → Option DocumentFormat
  | "TIFF" => some .tiff
  | "PDF" => some .pdf
  | "PNG" => some .png
  | "JPEG" => some .jpeg
  | _ => none

/-- `DocumentFormat.from_string`: normalise the input, try the MIME map,
then the enum value, then the upper-cased enum name; raises `ValueError`
(modelled as `Except.error`) otherwise. -/
def DocumentFormat.fromString (formatInput : String) :
    Except String DocumentFormat :=
  let normalized := pyStrip (pyLower formatInput)
  let normalized : String :=
    match normalized.data with
    | '.' :: rest => ⟨rest⟩
    | _ => normalized
  let normalized :=
    match formatMimeTypes.lookup normalized with
    | some v => v
    | none => normalized
  match formatOfValue normalized with
  | some f => .ok f
  | none =>
    match formatOfName (pyUpper formatInput) with
    | some f => .ok f
    | none =>
      .error ("Unsupported format: " ++ formatInput ++
        ". Supported: image/tiff, image/tif, application/pdf, image/png, " ++
        "image/jpeg, image/jpg or tiff, pdf, png, jpeg")

/-- The failure result built in the `except` branch of
`deidentify_document`: status `"failure"`, empty bytes, zero counters,
empty lists, and the error message appended to the (empty) error list. -/
def failureResult (e : String) : DeidentificationResult :=
  ⟨"failure", "", 0, 0, [], [], ["De-identification failed: " ++ e]⟩

/-- The `try`/`except` of `deidentify_document`: a pipeline exception is
converted into a failure result. -/
def runPipelineCaught (pipeline : Except String DeidentificationResult) :
    Except String DeidentificationResult :=
  match pipeline with
  | .ok r => .ok r
  | .error e => .ok (failureResult e)

/-- `DeidentificationService.deidentify_document`: a string
`output_format` is parsed by `DocumentFormat.from_string` *before* the
`try` block, so a parse error propagates; everything the `try` block
raises is converted into a failure result. -/
def deidentifyDocument (outputFormat : Option String)
    (pipeline : Except String DeidentificationResult) :
    Except String DeidentificationResult :=
  match outputFormat with
  | some s =>
    match DocumentFormat.fromString s with
    | .error e => .error e
    | .ok _ => runPipelineCaught pipeline
  | none => runPipelineCaught pipeline

/-! ## Durable job task (`src/tasks.py`)

`deidentify_document_task` is modelled as a function from the outcome of
each effectful step (does the job row exist; do download, pipeline, upload
and delete succeed) to the trace of job-status and storage events it
performs.  Buckets hold sets of keys; stores are derived from the event
trace by a small interpreter, so every intermediate state is available. -/

/-- The two storage backends the task talks to. -/
inductive BucketId where
  | phi
  | clean
deriving DecidableEq, Repr

/-- Job-status and storage events performed by the task. -/
inductive TaskEv where
  | setStatus (s : JobStatus)
  | download (bucket : BucketId) (key : String)
  | upload (bucket : BucketId) (key : String)
  | delete (bucket : BucketId) (key : String)
deriving DecidableEq, Repr

/-- Success or failure of each effectful step of the task. -/
structure TaskOutcomes where
  jobFound : Bool
  downloadOk : Bool
  pipelineOk : Bool
  uploadOk : Bool
  deleteOk : Bool
deriving DecidableEq, Repr

/-- The two buckets, as sets of keys. -/
structure Buckets where
  phi : List String
  clean : List String
deriving DecidableEq, Repr

/-- Interpret one successful event against the buckets. -/
def applyEv (w : Buckets) : TaskEv → Buckets
  | .setStatus _ => w
  | .download _ _ => w
  | .upload .phi key => { w with phi := key :: w.phi }
  | .upload .clean key => { w with clean := key :: w.clean }
  | .delete .phi key => { w with phi := w.phi.filter (fun k => k ≠ key) }
  | .delete .clean key => { w with clean := w.clean.filter (fun k => k ≠ key) }

/-- All intermediate bucket states reached while interpreting a trace. -/
def scanStates (w : Buckets) : List TaskEv → List Buckets
  | [] => [w]
  | e :: es => w :: scanStates (applyEv w e) es

/-- Output key written by the task: `masked/<job_id>.tiff`. -/
def outputKeyOf (jobId : String) : String :=
  "masked/" ++ jobId ++ ".tiff"

/-- The event trace of `deidentify_document_task`: set PROCESSING; download
the input from the PHI bucket; run the pipeline; upload the masked bytes to
the clean bucket; only then delete the input from the PHI bucket; finally
write COMPLETE (entity rows are persisted in the same session).  The first
failing step raises into the `except` branch, which performs no storage
event and marks the job FAILED only when retries are exhausted. -/
def taskEvents (jobId inputKey : String) (o : TaskOutcomes) : List TaskEv :=
  if !o.jobFound then []
  else if !o.downloadOk then [.setStatus .processing]
  else if !o.pipelineOk then
    [.setStatus .processing, .download .phi inputKey]
  else if !o.uploadOk then
    [.setStatus .processing, .download .phi inputKey]
  else if !o.deleteOk then
    [.setStatus .processing, .download .phi inputKey,
     .upload .clean (outputKeyOf jobId)]
  else
    [.setStatus .processing, .download .phi inputKey,
     .upload .clean (outputKeyOf jobId), .delete .phi inputKey,
     .setStatus .complete]

/-- Final job-row status of `deidentify_document_task`: COMPLETE on full
success; on an exception, FAILED when this attempt exhausts the retry
budget, otherwise the row keeps the PROCESSING written at the start (the
queue redelivers); a missing job row is never updated. -/
def taskFinalStatus (initial : JobStatus) (o : TaskOutcomes)
    (retries maxRetries : Nat) : JobStatus :=
  if !o.jobFound then initial
  else if o.downloadOk && o.pipelineOk && o.uploadOk && o.deleteOk then
    .complete
  else if maxRetries ≤ retries + 1 then .failed
  else .processing

/-- Final bucket contents after a task run. -/
def taskFinalBuckets (jobId inputKey : String) (o : TaskOutcomes)
    (w : Buckets) : Buckets :=
  (taskEvents jobId inputKey o).foldl applyEv w

/-! ## Persisted PHI entity rows (`src/tasks.py`, COMPLETE branch) -/

/-- Row of the PHI entity table as built in `deidentify_document_task`. -/
structure PHIEntityRow where
  jobId : String
  text : String
  category : String
  subcategory : Option String
  page : Nat
  confidence : ℚ
  offset : Nat
  length : Nat
  bboxX : ℤ
  bboxY : ℤ
  bboxWidth : ℤ
  bboxHeight : ℤ
deriving DecidableEq, Repr

/-- The row persisted for one entity: page and bounding box come from the
*first* mask region in the result whose `entity_category` equals the
entity's category (`next(...)` in `tasks.py`), defaulting to page 1 and a
zero box when no such region exists. -/
def entityRow (jobId : String) (maskRegions : List MaskRegion)
    (e : PHIEntity) : PHIEntityRow :=
  match maskRegions.find? (fun mr => decide (mr.entityCategory = e.category)) with
  | some mr =>
    ⟨jobId, e.text, e.category, e.subcategory, mr.page, e.confidence,
      e.offset, e.length, mr.boundingBox.x, mr.boundingBox.y,
      mr.boundingBox.width, mr.boundingBox.height⟩
  | none =>
    ⟨jobId, e.text, e.category, e.subcategory, 1, e.confidence,
      e.offset, e.length, 0, 0, 0, 0⟩

/-- All rows persisted for a completed job. -/
def persistEntityRows (jobId : String) (result : DeidentificationResult) :
    List PHIEntityRow :=
  result.phiEntities.map (entityRow jobId result.maskRegions)

/-! ## Spec-side definition for the box-merging refinement (§4.4.4)

`unionBoxSpec` follows the specification's words: the union rectangle
`(min x, min y, max x − min x, max y − min y)` of the words' boxes, each
side padded by `MASK_PAD_PX`, with `x`, `y` clamped at 0 (the right and
bottom edges stay at their padded positions). -/

/-- Union rectangle of a non-empty box list (first box plus the rest),
padded and clamped as §4.4.4 describes. -/
def unionBoxSpec (pad : ℤ) (b0 : BoundingBox) (rest : List BoundingBox) :
    BoundingBox :=
  let boxes := b0 :: rest
  let minX := zListMin b0.x (boxes.map (fun b => b.x))
  let minY := zListMin b0.y (boxes.map (fun b => b.y))
  let maxX := zListMax (b0.x + b0.width) (boxes.map (fun b => b.x + b.width))
  let maxY := zListMax (b0.y + b0.height) (boxes.map (fun b => b.y + b.height))
  ⟨b0.page, max 0 (minX - pad), max 0 (minY - pad),
    (maxX + pad) - max 0 (minX - pad), (maxY + pad) - max 0 (minY - pad)⟩

/-! ## Concrete instances used by individual claims -/

/-- OCR word `"John"` at box (100,200,50,20) on page 1 (scenario S5 input). -/
def c2Word : OCRWord := ⟨"John", 1, ⟨1, 100, 200, 50, 20⟩⟩

/-- One-page OCR result whose full text is `"John"`. -/
def c2OCR : OCRResult := ⟨[⟨1, 1000, 1000, [c2Word]⟩], "John"⟩

/-- Single-character entity `"J"` (scenario S5). -/
def c2EntityJ : PHIEntity := ⟨"J", "Person", 0, 1, 1, none⟩

/-- The offset-map entry the matcher builds for `c2Word`. -/
def c2WO : WordOffset := ⟨c2Word, 0, 4⟩

/-- The mask region the code emits for entity `"J"` on `c2OCR`. -/
def c2Region : MaskRegion := ⟨1, ⟨1, 95, 195, 60, 30⟩, "Person", 1⟩

/-- First occurrence of `"John"` for the duplicate-occurrence scenario. -/
def c3Word1 : OCRWord := ⟨"John", 1, ⟨1, 100, 200, 50, 20⟩⟩

/-- Second occurrence of `"John"`, further right on the same page. -/
def c3Word2 : OCRWord := ⟨"John", 1, ⟨1, 500, 200, 50, 20⟩⟩

/-- One-page OCR result with full text `"John John"`. -/
def c3OCR : OCRResult := ⟨[⟨1, 1000, 1000, [c3Word1, c3Word2]⟩], "John John"⟩

/-- Entity `"John"` with a phantom offset beyond the text, forcing the
text-search fallback. -/
def c3Entity : PHIEntity := ⟨"John", "Person", 20, 4, 1, none⟩

/-- Offset-map entry for the first `"John"`. -/
def c3WO1 : WordOffset := ⟨c3Word1, 0, 4⟩

/-- Offset-map entry for the second `"John"`. -/
def c3WO2 : WordOffset := ⟨c3Word2, 5, 9⟩

/-- OCR word whose text is far from the entity text of `c4Entity`. -/
def c4Word : OCRWord := ⟨"azcdefgxx", 1, ⟨1, 100, 200, 90, 20⟩⟩

/-- One-page OCR result with full text `"azcdefgxx"`. -/
def c4OCR : OCRResult := ⟨[⟨1, 1000, 1000, [c4Word]⟩], "azcdefgxx"⟩

/-- Entity whose text carries two trailing spaces: its unstripped length is
9 (claim bound `max(9/3,2) = 3`) while the code strips it to length 7
(bound `max(7/3,2) = 2`). -/
def c4Entity : PHIEntity := ⟨"abcdefg  ", "Person", 0, 7, 1, none⟩

/-- Offset-map entry for `c4Word`. -/
def c4WO : WordOffset := ⟨c4Word, 0, 9⟩

/-- OCR word used by the accepted-validation witness of C4. -/
def c4bWord : OCRWord := ⟨"John", 1, ⟨1, 100, 200, 50, 20⟩⟩

/-- Offset-map entry for `c4bWord`. -/
def c4bWO : WordOffset := ⟨c4bWord, 0, 4⟩

/-- Entity `"John"` matching `c4bWord` exactly. -/
def c4bEntity : PHIEntity := ⟨"John", "Person", 0, 4, 1, none⟩

/-- Scenario S1 word `"John"` at box (100,200,50,20). -/
def c5Word : OCRWord := ⟨"John", 1, ⟨1, 100, 200, 50, 20⟩⟩

/-- Scenario S1 OCR result. -/
def c5OCR : OCRResult := ⟨[⟨1, 1000, 1000, [c5Word]⟩], "John"⟩

/-- Scenario S1 entity `("John", Person, offset 0, length 4, 0.95)`. -/
def c5Entity : PHIEntity := ⟨"John", "Person", 0, 4, 1, none⟩

/-- Scenario S1 expected mask region: page 1, box (95,195,60,30). -/
def c5Region : MaskRegion := ⟨1, ⟨1, 95, 195, 60, 30⟩, "Person", 1⟩

/-- Greyscale one-pixel page (PIL mode `L`). -/
def c8ImgL : PageImage := ⟨"L", [[(5, 5, 5)]]⟩

/-- RGB one-pixel page. -/
def c8ImgRGB : PageImage := ⟨"RGB", [[(7, 7, 7)]]⟩

/-- Mask region targeting page 2 only. -/
def c8Region : MaskRegion := ⟨2, ⟨2, 0, 0, 10, 10⟩, "Person", 1⟩

/-- First `Person` mask region of the C9 witness. -/
def c9R1 : MaskRegion := ⟨1, ⟨1, 10, 20, 30, 40⟩, "Person", 1⟩

/-- Second `Person` mask region of the C9 witness (generated from the
second entity, but never used for its row). -/
def c9R2 : MaskRegion := ⟨2, ⟨2, 50, 60, 70, 80⟩, "Person", 0⟩

/-- First `Person` entity of the C9 witness. -/
def c9E1 : PHIEntity := ⟨"John", "Person", 0, 4, 1, none⟩

/-- Second `Person` entity of the C9 witness. -/
def c9E2 : PHIEntity := ⟨"Mary", "Person", 10, 4, 0, none⟩

/-- A successful pipeline result used by the C10 counterexample: the
pipeline itself raises nothing. -/
def c10Ok : DeidentificationResult :=
  ⟨"success", "bytes", 1, 0, [], [], []⟩

/-! ## Helper lemmas -/

/-- Keys after `insertGrouped`: unchanged when the page is present, the page
appended otherwise. -/
theorem insertGrouped_map_fst (p : Nat) (wo : WordOffset)
    (acc : List (Nat × List WordOffset)) :
    (insertGrouped p wo acc).map Prod.fst =
      if p ∈ acc.map Prod.fst then acc.map Prod.fst
      else acc.map Prod.fst ++ [p] := by
  induction acc with
  | nil => simp [insertGrouped]
  | cons hd tl ih =>
    obtain ⟨q, l⟩ := hd
    by_cases hq : q = p
    · subst hq
      simp [insertGrouped]
    · simp only [insertGrouped, if_neg hq, List.map_cons, ih]
      have hne : ¬ p = q := fun h => hq h.symm
      by_cases hp : p ∈ tl.map Prod.fst
      · simp [hp, hne]
      · simp [hp, hne]

/-- `insertGrouped` preserves distinctness of the page keys. -/
theorem insertGrouped_fst_nodup (p : Nat) (wo : WordOffset)
    (acc : List (Nat × List WordOffset))
    (h : (acc.map Prod.fst).Nodup) :
    ((insertGrouped p wo acc).map Prod.fst).Nodup := by
  rw [insertGrouped_map_fst]
  split
  · exact h
  · next hmem => simp [List.nodup_append, h, hmem]

/-- Page keys of `groupByPage` folds stay distinct. -/
theorem groupByPage_foldl_fst_nodup (l : List WordOffset) :
    ∀ acc : List (Nat × List WordOffset), (acc.map Prod.fst).Nodup →
      ((l.foldl (fun acc wo => insertGrouped wo.word.boundingBox.page wo acc)
        acc).map Prod.fst).Nodup := by
  induction l with
  | nil => intro acc h; simpa using h
  | cons wo rest ih =>
    intro acc h
    exact ih _ (insertGrouped_fst_nodup _ _ _ h)

/-- The page keys of `groupByPage` are pairwise distinct. -/
theorem groupByPage_fst_nodup (l : List WordOffset) :
    ((groupByPage l).map Prod.fst).Nodup :=
  groupByPage_foldl_fst_nodup l [] (by simp)

/-- `insertGrouped` preserves non-emptiness of every group. -/
theorem insertGrouped_snd_ne (p : Nat) (wo : WordOffset) :
    ∀ acc : List (Nat × List WordOffset), (∀ g ∈ acc, g.2 ≠ []) →
      ∀ g ∈ insertGrouped p wo acc, g.2 ≠ [] := by
  intro acc
  induction acc with
  | nil =>
    intro _ g hg
    simp only [insertGrouped, List.mem_singleton] at hg
    subst hg
    simp
  | cons hd tl ih =>
    obtain ⟨q, l⟩ := hd
    intro h g hg
    by_cases hq : q = p
    · subst hq
      simp [insertGrouped] at hg
      rcases hg with hg | hg
      · subst hg; simp
      · exact h g (List.mem_cons_of_mem _ hg)
    · simp [insertGrouped, hq] at hg
      rcases hg with hg | hg
      · subst hg; exact h (q, l) (List.mem_cons_self _ _)
      · exact ih (fun g' hg' => h g' (List.mem_cons_of_mem _ hg')) g hg

/-- Every group folded up by `groupByPage` is non-empty. -/
theorem groupByPage_foldl_snd_ne (l : List WordOffset) :
    ∀ acc : List (Nat × List WordOffset), (∀ g ∈ acc, g.2 ≠ []) →
      ∀ g ∈ l.foldl (fun acc wo => insertGrouped wo.word.boundingBox.page wo acc)
        acc, g.2 ≠ [] := by
  induction l with
  | nil => intro acc h; simpa using h
  | cons wo rest ih =>
    intro acc h
    exact ih _ (insertGrouped_snd_ne _ _ _ h)

/-- Every group of `groupByPage` is non-empty. -/
theorem groupByPage_snd_ne (l : List WordOffset) :
    ∀ g ∈ groupByPage l, g.2 ≠ [] :=
  groupByPage_foldl_snd_ne l [] (by simp)

/-- `mergeBoundingBoxes` succeeds on every non-empty word list. -/
theorem mergeBoundingBoxes_isSome (m : Matcher) (wos : List WordOffset)
    (h : wos ≠ []) : (mergeBoundingBoxes m wos).isSome := by
  cases wos with
  | nil => exact absurd rfl h
  | cons wo rest => simp [mergeBoundingBoxes]

/-- One region per non-empty group survives the `filterMap` of
`regionsForEntity`. -/
theorem regionsForEntity_length_aux (m : Matcher) (e : PHIEntity) :
    ∀ groups : List (Nat × List WordOffset), (∀ g ∈ groups, g.2 ≠ []) →
      (groups.filterMap (fun g => (mergeBoundingBoxes m g.2).map
        (fun box => (⟨g.1, box, e.category, e.confidence⟩ : MaskRegion)))).length
        = groups.length := by
  intro groups
  induction groups with
  | nil => intro _; rfl
  | cons g gs ih =>
    intro h
    have hne : g.2 ≠ [] := h g (List.mem_cons_self _ _)
    obtain ⟨box, hbox⟩ := Option.isSome_iff_exists.mp
      (mergeBoundingBoxes_isSome m g.2 hne)
    simp [List.filterMap_cons, hbox,
      ih (fun g' hg' => h g' (List.mem_cons_of_mem _ hg'))]

/-- Inserting a region under a different page key leaves a `lookup`
unchanged. -/
theorem insertRegionGrouped_lookup_ne (p q : Nat) (r : MaskRegion)
    (hq : q ≠ p) :
    ∀ acc : List (Nat × List MaskRegion),
      (insertRegionGrouped q r acc).lookup p = acc.lookup p := by
  intro acc
  induction acc with
  | nil =>
    have : (p == q) = false := by
      simp only [beq_eq_false_iff_ne, ne_eq]
      exact fun hpq => hq hpq.symm
    simp [insertRegionGrouped, List.lookup, this]
  | cons hd tl ih =>
    obtain ⟨k, l⟩ := hd
    by_cases hk : k = q
    · subst hk
      have hbeq : (p == k) = false := by
        simp only [beq_eq_false_iff_ne, ne_eq]
        exact fun hpq => hq hpq.symm
      simp [insertRegionGrouped, List.lookup, hbeq]
    · simp only [insertRegionGrouped, if_neg hk]
      show List.lookup p ((k, l) :: insertRegionGrouped q r tl) =
        List.lookup p ((k, l) :: tl)
      cases hpk : (p == k) with
      | true => simp [List.lookup, hpk]
      | false => simpa [List.lookup, hpk] using ih

/-- Folding regions whose pages all avoid `p` never creates a group for
`p`. -/
theorem groupRegions_foldl_lookup_none (p : Nat) :
    ∀ (regions : List MaskRegion) (acc : List (Nat × List MaskRegion)),
      (∀ r ∈ regions, r.page ≠ p) → acc.lookup p = none →
      (regions.foldl (fun acc r => insertRegionGrouped r.page r acc)
        acc).lookup p = none := by
  intro regions
  induction regions with
  | nil => intro acc _ hacc; simpa using hacc
  | cons r rest ih =>
    intro acc h hacc
    refine ih _ (fun r' hr' => h r' (List.mem_cons_of_mem _ hr')) ?_
    rw [insertRegionGrouped_lookup_ne p r.page r
      (h r (List.mem_cons_self _ _)) acc]
    exact hacc

/-- A page targeted by no region has no group in `groupRegionsByPage`. -/
theorem lookupGroup_eq_nil (p : Nat) (regions : List MaskRegion)
    (h : ∀ r ∈ regions, r.page ≠ p) :
    lookupGroup p (groupRegionsByPage regions) = [] := by
  unfold lookupGroup groupRegionsByPage
  rw [groupRegions_foldl_lookup_none p regions [] h rfl]

/-- Retry bookkeeping never reports COMPLETE. -/
theorem retry_status_ne_complete (c : Prop) [Decidable c] :
    (if c then JobStatus.failed else JobStatus.processing) ≠
      JobStatus.complete := by
  split <;> intro h <;> exact JobStatus.noConfusion h

/-! ## Claim theorems -/

/-- C2 (counterexample): the single-character entity `"J"` is masked via
the fallback — the offset match is rejected by validation (distance 3
exceeds bound 2), the fallback fires and returns the word `"John"`, and
one mask region is emitted, where the claim demands zero. -/
theorem single_char_fallback_counterexample :
    c2EntityJ.length = 1 ∧
    validationBound defaultMatcher c2EntityJ < validationDistance c2EntityJ [c2WO] ∧
    findOverlappingWords defaultMatcher c2EntityJ [c2WO] c2OCR.fullText = [c2WO] ∧
    fuzzySearchForEntity defaultMatcher c2EntityJ [c2WO] = [c2WO] ∧
    matchEntitiesToBoxes defaultMatcher c2OCR [c2EntityJ] = [c2Region] := by
  decide

/-- C2 (amended): the text-search fallback performs no single-character
rejection — every offset-map word whose lowercased stripped text contains
the entity's lowercased stripped text is returned by
`_fuzzy_search_for_entity`, so a length-1 entity whose character occurs in
some word yields that word (and hence mask regions). -/
theorem fuzzy_fallback_no_single_char_rejection
    (m : Matcher) (e : PHIEntity) (om : List WordOffset) (wo : WordOffset)
    (hmem : wo ∈ om)
    (hsub : pyIn (pyLower (pyStrip e.text)) (pyLower (pyStrip wo.word.text)) = true) :
    wo ∈ fuzzySearchForEntity m e om := by
  unfold fuzzySearchForEntity
  refine List.mem_filter.mpr ⟨hmem, ?_⟩
  simp [hsub]

/-- C2 (witness): the hypotheses of
`fuzzy_fallback_no_single_char_rejection` hold for entity `"J"` and the
word `"John"`, which the fallback indeed returns. -/
theorem fuzzy_fallback_no_single_char_rejection_witness :
    c2WO ∈ fuzzySearchForEntity defaultMatcher c2EntityJ [c2WO] :=
  fuzzy_fallback_no_single_char_rejection defaultMatcher c2EntityJ [c2WO]
    c2WO (by decide) (by decide)

/-- C3 (counterexample): with full text `"John John"` and a phantom-offset
entity `"John"`, primary matching finds nothing and the substring guard
holds, yet the fallback returns the words of *both* occurrences — not only
the first contiguous run — and they are merged into one region spanning
both. -/
theorem fallback_multiple_occurrences_counterexample :
    buildOffsetMap defaultMatcher c3OCR = [c3WO1, c3WO2] ∧
    (buildOffsetMap defaultMatcher c3OCR).filter
      (fun wo => wo.overlapsRange c3Entity.offset c3Entity.endOffset) = [] ∧
    pyIn (pyLower c3Entity.text) (pyLower c3OCR.fullText) = true ∧
    findOverlappingWords defaultMatcher c3Entity
      (buildOffsetMap defaultMatcher c3OCR) c3OCR.fullText = [c3WO1, c3WO2] ∧
    [c3WO1, c3WO2] ≠ [c3WO1] := by
  decide

/-- C3 (amended): when primary offset matching finds no overlapping word
and the lowercased entity text occurs in the lowercased full text, the
fallback returns exactly the offset-map words that are *individually*
similar to the entity text (substring containment either way, or
Levenshtein distance within the threshold) — across all occurrences and
with no contiguity restriction. -/
theorem fallback_filter_characterization
    (m : Matcher) (e : PHIEntity) (om : List WordOffset) (ft : String)
    (hnol : om.filter (fun wo => wo.overlapsRange e.offset e.endOffset) = [])
    (hsub : pyIn (pyLower e.text) (pyLower ft) = true) :
    findOverlappingWords m e om ft = fuzzySearchForEntity m e om ∧
    ∀ wo, wo ∈ findOverlappingWords m e om ft ↔
      wo ∈ om ∧
        (pyIn (pyLower (pyStrip wo.word.text)) (pyLower (pyStrip e.text)) ||
         pyIn (pyLower (pyStrip e.text)) (pyLower (pyStrip wo.word.text)) ||
         decide (levDistance (pyLower (pyStrip wo.word.text))
           (pyLower (pyStrip e.text)) ≤ m.fuzzyMatchThreshold)) = true := by
  have h1 : findOverlappingWords m e om ft = fuzzySearchForEntity m e om := by
    unfold findOverlappingWords
    rw [hnol]
    simp [hsub]
  refine ⟨h1, fun wo => ?_⟩
  rw [h1]
  unfold fuzzySearchForEntity
  exact List.mem_filter

/-- C3 (witness): the characterisation applied to the two-occurrence
scenario. -/
theorem fallback_filter_characterization_witness :
    findOverlappingWords defaultMatcher c3Entity [c3WO1, c3WO2] c3OCR.fullText
      = fuzzySearchForEntity defaultMatcher c3Entity [c3WO1, c3WO2] :=
  (fallback_filter_characterization defaultMatcher c3Entity [c3WO1, c3WO2]
    c3OCR.fullText (by decide) (by decide)).1

/-- C4 (counterexample): for an entity text with trailing whitespace
(`"abcdefg  "`, unstripped length 9) overlapping the OCR word
`"azcdefgxx"`, the claim's formula accepts the match (distance 3 ≤
`max(9/3, 2) = 3`), but the code compares against the *stripped* text with
bound `max(7/3, 2) = 2`, discards the match, and emits no region. -/
theorem validation_unstripped_counterexample :
    ([c4WO].filter (fun wo => wo.overlapsRange c4Entity.offset c4Entity.endOffset))
      = [c4WO] ∧
    levDistance (pyLower (joinSpace [c4WO.word.text])) (pyLower c4Entity.text)
      ≤ max (c4Entity.text.length / 3) defaultMatcher.fuzzyMatchThreshold ∧
    findOverlappingWords defaultMatcher c4Entity [c4WO] c4OCR.fullText = [] ∧
    matchEntitiesToBoxes defaultMatcher c4OCR [c4Entity] = [] := by
  decide

/-- C4 (amended): when the entity span overlaps at least one offset-map
word, the overlap set is accepted iff the Levenshtein distance between the
words' texts joined with single spaces and the *whitespace-stripped* entity
text, both lowercased, is at most `max(⌊|strip(entity.text)|/3⌋,
FUZZY_THRESHOLD)`; otherwise the offset match is discarded and the result
is whatever the text-search fallback path yields. -/
theorem offset_validation_threshold
    (m : Matcher) (e : PHIEntity) (om : List WordOffset) (ft : String)
    (hov : om.filter (fun wo => wo.overlapsRange e.offset e.endOffset) ≠ []) :
    (validationDistance e (om.filter
        (fun wo => wo.overlapsRange e.offset e.endOffset)) ≤ validationBound m e →
      findOverlappingWords m e om ft =
        om.filter (fun wo => wo.overlapsRange e.offset e.endOffset)) ∧
    (validationBound m e < validationDistance e (om.filter
        (fun wo => wo.overlapsRange e.offset e.endOffset)) →
      findOverlappingWords m e om ft =
        if pyIn (pyLower e.text) (pyLower ft) then fuzzySearchForEntity m e om
        else []) := by
  have hne : (om.filter (fun wo => wo.overlapsRange e.offset e.endOffset)).isEmpty
      = false := by
    cases hl : om.filter (fun wo => wo.overlapsRange e.offset e.endOffset) with
    | nil => exact absurd hl hov
    | cons a l => rfl
  constructor
  · intro h
    have hnl : ¬ validationBound m e < validationDistance e (om.filter
        (fun wo => wo.overlapsRange e.offset e.endOffset)) := Nat.not_lt.mpr h
    unfold findOverlappingWords
    simp [hne, hnl]
  · intro h
    unfold findOverlappingWords
    simp [hne, h]

/-- C4 (witness): the accepted branch applied to an exactly matching word
and entity (`"John"`, distance 0). -/
theorem offset_validation_threshold_witness :
    findOverlappingWords defaultMatcher c4bEntity [c4bWO] "John" =
      [c4bWO].filter (fun wo =>
        wo.overlapsRange c4bEntity.offset c4bEntity.endOffset) :=
  (offset_validation_threshold defaultMatcher c4bEntity [c4bWO] "John"
    (by decide)).1 (by decide)

/-- C5: for every non-empty set of matched words the merged box is the
union rectangle of the words' boxes padded by the configured padding on
all four sides with x and y clamped at 0 (right/bottom edges kept); the
page keys of the grouping are pairwise distinct and exactly one region is
emitted per page group; and scenario S1 (single word `"John"` at
(100,200,50,20), entity `("John", Person, 0, 4)`) yields exactly one
region on page 1 with box (95,195,60,30) at default padding. -/
theorem box_merging_matches_spec (m : Matcher) (wo : WordOffset)
    (rest : List WordOffset) :
    mergeBoundingBoxes m (wo :: rest) =
      some (unionBoxSpec m.boxPaddingPx wo.word.boundingBox
        (rest.map (fun w => w.word.boundingBox))) ∧
    ((groupByPage (wo :: rest)).map Prod.fst).Nodup ∧
    (∀ e : PHIEntity, (regionsForEntity m e (wo :: rest)).length =
      (groupByPage (wo :: rest)).length) ∧
    matchEntitiesToBoxes defaultMatcher c5OCR [c5Entity] = [c5Region] := by
  refine ⟨?_, groupByPage_fst_nodup _, fun e => ?_, by decide⟩
  · rfl
  · exact regionsForEntity_length_aux m e (groupByPage (wo :: rest))
      (groupByPage_snd_ne (wo :: rest))

/-- C6 (counterexample): the key `"foo..bar"` contains the substring `".."`
yet resolves inside the base path, so the upload succeeds and creates the
file — the claim that every key containing `".."` fails is false. -/
theorem dotdot_key_upload_succeeds :
    pyIn ".." "foo..bar" = true ∧
    uploadLocal ["data", "storage"] [] "foo..bar" "d" =
      .ok [(["data", "storage", "foo..bar"], "d")] :=
  ⟨by decide, rfl⟩

/-- C6 (amended): every key whose resolved path lies outside the backend's
base path is rejected by `upload`, `download`, `exists` and `delete`; a
key merely containing `".."` as a substring may still succeed when it
resolves inside the base. -/
theorem outside_base_rejected (base : List String) (st : LocalStore)
    (key data : String) (h : getFullPath base key = none) :
    uploadLocal base st key data =
      .error "ValueError: path resolves outside base_path" ∧
    downloadLocal base st key =
      .error "ValueError: path resolves outside base_path" ∧
    existsLocal base st key =
      .error "ValueError: path resolves outside base_path" ∧
    deleteLocal base st key =
      .error "ValueError: path resolves outside base_path" := by
  simp [uploadLocal, downloadLocal, existsLocal, deleteLocal, h]

/-- C6 (witness): the key `".."` resolves outside the base and all four
operations reject it. -/
theorem outside_base_rejected_witness :
    uploadLocal ["data", "storage"] [] ".." "d" =
      .error "ValueError: path resolves outside base_path" ∧
    downloadLocal ["data", "storage"] [] ".." =
      .error "ValueError: path resolves outside base_path" ∧
    existsLocal ["data", "storage"] [] ".." =
      .error "ValueError: path resolves outside base_path" ∧
    deleteLocal ["data", "storage"] [] ".." =
      .error "ValueError: path resolves outside base_path" :=
  outside_base_rejected ["data", "storage"] [] ".." "d" (by decide)

/-- C7: with masking level CUSTOM and an empty configured category set,
both the Azure and the AWS level filter include every category — the
filtered entity list equals the SAFE_HARBOR one — and the warning is
emitted. -/
theorem custom_empty_degrades_to_safe_harbor
    (customCats : List String) (category : String) (raw : List PHIEntity)
    (e : AWSEntity) :
    azureShouldIncludeEntity [] category .custom = (true, true) ∧
    (azureShouldIncludeEntity [] category .custom).1 =
      (azureShouldIncludeEntity customCats category .safeHarbor).1 ∧
    azureFilterEntities [] .custom raw =
      azureFilterEntities customCats .safeHarbor raw ∧
    awsShouldIncludeEntity [] e .custom = (true, true) ∧
    (awsShouldIncludeEntity [] e .custom).1 =
      (awsShouldIncludeEntity customCats e .safeHarbor).1 := by
  refine ⟨rfl, rfl, ?_, rfl, rfl⟩
  unfold azureFilterEntities
  simp [azureShouldIncludeEntity]

/-- C1: whenever the job row reaches COMPLETE, the task performed exactly
set-PROCESSING, download from PHI, upload of `masked/<job_id>.tiff` to the
clean bucket, delete of the input from the PHI bucket, set-COMPLETE, in
that order; afterwards the clean bucket contains the output and the PHI
bucket no longer contains the input; and in every run, at every
intermediate state, the PHI input is never gone while the clean output is
absent. -/
theorem task_upload_precedes_delete
    (jobId inputKey : String) (o : TaskOutcomes) (w : Buckets)
    (retries maxRetries : Nat) (initial : JobStatus)
    (hinit : initial ≠ JobStatus.complete) :
    (taskFinalStatus initial o retries maxRetries = JobStatus.complete →
      taskEvents jobId inputKey o =
        [TaskEv.setStatus JobStatus.processing,
         TaskEv.download BucketId.phi inputKey,
         TaskEv.upload BucketId.clean (outputKeyOf jobId),
         TaskEv.delete BucketId.phi inputKey,
         TaskEv.setStatus JobStatus.complete] ∧
      outputKeyOf jobId ∈ (taskFinalBuckets jobId inputKey o w).clean ∧
      inputKey ∉ (taskFinalBuckets jobId inputKey o w).phi) ∧
    (∀ s ∈ scanStates w (taskEvents jobId inputKey o),
      inputKey ∈ w.phi → inputKey ∉ s.phi → outputKeyOf jobId ∈ s.clean) := by
  obtain ⟨jf, dok, pok, uok, delok⟩ := o
  constructor
  · intro hc
    cases jf <;> cases dok <;> cases pok <;> cases uok <;> cases delok <;>
      simp only [taskFinalStatus, Bool.and_self, Bool.and_true, Bool.and_false,
        Bool.true_and, Bool.false_and, if_true, if_false, Bool.not_true,
        Bool.not_false, ite_true, ite_false, Bool.false_eq_true] at hc <;>
      first
      | exact absurd hc (retry_status_ne_complete _)
      | exact absurd hc hinit
      | (refine ⟨rfl, ?_, ?_⟩ <;>
          simp [taskFinalBuckets, taskEvents, applyEv])
  · intro s hs h1 h2
    cases jf <;> cases dok <;> cases pok <;> cases uok <;> cases delok <;>
      simp only [taskEvents, scanStates, applyEv, Bool.not_true, Bool.not_false,
        ite_true, ite_false, List.mem_cons, List.mem_singleton,
        List.not_mem_nil, or_false, or_self] at hs <;>
      ((rcases hs with rfl | rfl | rfl | rfl | rfl) <;>
        first | exact absurd h1 h2 | simp)

/-- C1 (witness): a fully successful run from PENDING ends COMPLETE with
the clean bucket holding the output, the PHI bucket emptied of the input,
and the five events in order. -/
theorem task_upload_precedes_delete_witness :
    taskEvents "job1" "input/job1.tiff"
        ⟨true, true, true, true, true⟩ =
      [TaskEv.setStatus JobStatus.processing,
       TaskEv.download BucketId.phi "input/job1.tiff",
       TaskEv.upload BucketId.clean (outputKeyOf "job1"),
       TaskEv.delete BucketId.phi "input/job1.tiff",
       TaskEv.setStatus JobStatus.complete] ∧
    outputKeyOf "job1" ∈ (taskFinalBuckets "job1" "input/job1.tiff"
      ⟨true, true, true, true, true⟩ ⟨["input/job1.tiff"], []⟩).clean ∧
    "input/job1.tiff" ∉ (taskFinalBuckets "job1" "input/job1.tiff"
      ⟨true, true, true, true, true⟩ ⟨["input/job1.tiff"], []⟩).phi :=
  (task_upload_precedes_delete "job1" "input/job1.tiff"
    ⟨true, true, true, true, true⟩ ⟨["input/job1.tiff"], []⟩ 0 3
    JobStatus.pending (by decide)).1 (by decide)

/-- C8 (counterexample): with one greyscale page and one RGB page and a
single region targeting page 2, the untouched page 1 comes back converted
to RGB — not an unchanged copy with the same mode. -/
theorem unmasked_page_mode_converted :
    (∀ r ∈ [c8Region], r.page ≠ 1) ∧
    applyMasks defaultMaskSvc [c8ImgL, c8ImgRGB] [c8Region] =
      .ok [⟨"RGB", [[(5, 5, 5)]]⟩, ⟨"RGB", [[(0, 0, 0)]]⟩] ∧
    (⟨"RGB", [[(5, 5, 5)]]⟩ : PageImage) ≠ c8ImgL :=
  ⟨by decide, rfl, by decide⟩

/-- C8 (amended): `apply_masks` is a pure function of its inputs (the
embedding returns fresh lists; inputs are never mutated); with no regions
every page is returned unchanged, and with regions present every page not
targeted by any region comes back as the RGB conversion of the input page
— same pixel content, mode possibly changed to RGB. -/
theorem apply_masks_frame (svc : MaskSvc) (images : List PageImage)
    (regions : List MaskRegion) (i : Nat) :
    (images ≠ [] → applyMasks svc images [] = .ok images) ∧
    (images ≠ [] → regions ≠ [] → (∀ r ∈ regions, r.page ≠ i + 1) →
      (applyMasks svc images regions).map (fun out => out.get? i) =
        .ok ((images.get? i).map convertRGB)) := by
  have himg : images ≠ [] → images.isEmpty = false := by
    intro h
    cases images with
    | nil => exact absurd rfl h
    | cons a l => rfl
  constructor
  · intro h
    have hcopy : images.map copyImage = images := by
      rw [show copyImage = id from rfl, List.map_id]
    simp [applyMasks, himg h, hcopy]
  · intro h hr hp
    have hrne : regions.isEmpty = false := by
      cases regions with
      | nil => exact absurd rfl hr
      | cons a l => rfl
    have hlk : lookupGroup (i + 1) (groupRegionsByPage regions) = [] :=
      lookupGroup_eq_nil _ _ hp
    simp only [applyMasks, himg h, hrne, Bool.false_eq_true, if_false,
      Except.map]
    congr 1
    rw [List.get?_map, List.get?_enum, List.get?_map]
    cases hi : images.get? i with
    | none => rfl
    | some img =>
      simp [hlk, copyImage]

/-- C8 (witness): the frame property applied to the two-page scenario —
the untouched page 1 equals the RGB conversion of the input page. -/
theorem apply_masks_frame_witness :
    (applyMasks defaultMaskSvc [c8ImgL, c8ImgRGB] [c8Region]).map
        (fun out => out.get? 0) =
      .ok (([c8ImgL, c8ImgRGB].get? 0).map convertRGB) :=
  (apply_masks_frame defaultMaskSvc [c8ImgL, c8ImgRGB] [c8Region] 0).2
    (by decide) (by decide) (by decide)

/-- C9: the page and bounding box persisted for an entity come from the
first mask region in the result whose category equals the entity's
category, defaulting to page 1 and a zero box at the origin when no such
region exists; consequently two entities of the same category record the
same (first) region's coordinates. -/
theorem entity_row_first_category_region
    (jobId : String) (regions : List MaskRegion) (e e1 e2 : PHIEntity) :
    (∀ mr, regions.find? (fun r => decide (r.entityCategory = e.category))
        = some mr →
      entityRow jobId regions e = ⟨jobId, e.text, e.category, e.subcategory,
        mr.page, e.confidence, e.offset, e.length, mr.boundingBox.x,
        mr.boundingBox.y, mr.boundingBox.width, mr.boundingBox.height⟩) ∧
    ((∀ mr ∈ regions, mr.entityCategory ≠ e.category) →
      entityRow jobId regions e = ⟨jobId, e.text, e.category, e.subcategory,
        1, e.confidence, e.offset, e.length, 0, 0, 0, 0⟩) ∧
    (e1.category = e2.category →
      (entityRow jobId regions e1).page = (entityRow jobId regions e2).page ∧
      (entityRow jobId regions e1).bboxX = (entityRow jobId regions e2).bboxX ∧
      (entityRow jobId regions e1).bboxY = (entityRow jobId regions e2).bboxY ∧
      (entityRow jobId regions e1).bboxWidth =
        (entityRow jobId regions e2).bboxWidth ∧
      (entityRow jobId regions e1).bboxHeight =
        (entityRow jobId regions e2).bboxHeight) := by
  refine ⟨?_, ?_, ?_⟩
  · intro mr hmr
    unfold entityRow
    rw [hmr]
  · intro hnone
    have hfind : regions.find?
        (fun r => decide (r.entityCategory = e.category)) = none := by
      rw [List.find?_eq_none]
      intro r hr
      simp [hnone r hr]
    unfold entityRow
    rw [hfind]
  · intro hcat
    have hfun : (fun r : MaskRegion => decide (r.entityCategory = e1.category))
        = (fun r => decide (r.entityCategory = e2.category)) := by
      funext r
      rw [hcat]
    unfold entityRow
    rw [hfun]
    cases regions.find? (fun r => decide (r.entityCategory = e2.category)) with
    | none => exact ⟨rfl, rfl, rfl, rfl, rfl⟩
    | some mr => exact ⟨rfl, rfl, rfl, rfl, rfl⟩

/-- C9 (witness): two `Person` entities against two `Person` regions — both
rows record the coordinates of the first region, including the entity whose
own region is the second one. -/
theorem entity_row_first_category_region_witness :
    (entityRow "job1" [c9R1, c9R2] c9E1).page =
      (entityRow "job1" [c9R1, c9R2] c9E2).page ∧
    (entityRow "job1" [c9R1, c9R2] c9E1).bboxX =
      (entityRow "job1" [c9R1, c9R2] c9E2).bboxX ∧
    (entityRow "job1" [c9R1, c9R2] c9E1).bboxY =
      (entityRow "job1" [c9R1, c9R2] c9E2).bboxY ∧
    (entityRow "job1" [c9R1, c9R2] c9E1).bboxWidth =
      (entityRow "job1" [c9R1, c9R2] c9E2).bboxWidth ∧
    (entityRow "job1" [c9R1, c9R2] c9E1).bboxHeight =
      (entityRow "job1" [c9R1, c9R2] c9E2).bboxHeight :=
  (entity_row_first_category_region "job1" [c9R1, c9R2] c9E1 c9E1 c9E2).2.2
    rfl

/-- C10 (counterexample): an unparsable string `output_format` is parsed
before the `try` block, so `deidentify_document` propagates the
`ValueError` even though the pipeline itself raised nothing. -/
theorem bad_output_format_propagates :
    deidentifyDocument (some "bogus") (Except.ok c10Ok) =
      Except.error ("Unsupported format: bogus. Supported: image/tiff, " ++
        "image/tif, application/pdf, image/png, image/jpeg, image/jpg or " ++
        "tiff, pdf, png, jpeg") :=
  rfl

/-- C10 (amended): whenever `output_format` is absent or parses
successfully, any exception raised by the pipeline stages is caught and
converted into a failure result with status `"failure"`, empty bytes, zero
counters, empty entity and region lists, and the error message appended to
the errors list. -/
theorem pipeline_errors_caught
    (pipeline : Except String DeidentificationResult) (e s : String)
    (fmt : DocumentFormat) (hp : pipeline = .error e) :
    deidentifyDocument none pipeline =
      .ok ⟨"failure", "", 0, 0, [], [],
        ["De-identification failed: " ++ e]⟩ ∧
    (DocumentFormat.fromString s = .ok fmt →
      deidentifyDocument (some s) pipeline =
        .ok ⟨"failure", "", 0, 0, [], [],
          ["De-identification failed: " ++ e]⟩) := by
  subst hp
  refine ⟨rfl, fun hf => ?_⟩
  simp [deidentifyDocument, hf, runPipelineCaught, failureResult]

/-- C10 (witness): a raising pipeline with no `output_format` yields the
failure result, and likewise with the parsable format `"tiff"`. -/
theorem pipeline_errors_caught_witness :
    deidentifyDocument none (Except.error "OCR failed") =
      .ok ⟨"failure", "", 0, 0, [], [],
        ["De-identification failed: OCR failed"]⟩ :=
  (pipeline_errors_caught (Except.error "OCR failed") "OCR failed" "tiff"
    DocumentFormat.tiff rfl).1
